import Mathlib

/-!
Verification of the smalltx rules engine (src/state.js, src/game.js).

The JavaScript sources are shallowly embedded: the mutable `state` object
becomes an explicit `GameState` record threaded through the functions, JS
numbers holding board coordinates become `Int` (JS `%` on them is the
truncating remainder `Int.tmod`, `Math.floor(x/2)` is `Int.fdiv x 2`),
damage/health counters become `Nat`, and `null`-able references become
`Option`.  Units are identified by their `id` (the source draws it from
`crypto.randomUUID()`; here it is an opaque `Nat` token) and an in-place
mutation of a unit object becomes a map over `GameState.units` updating the
entry with that id.  Asynchronous UI collaborators (the damage-allocation
modal and the unit-picker modal) become function arguments, absent = `none`.
Presentation-only state is elided: the append-only message log, the
animation bookkeeping (`hitAnimation`, `moveAnimation`, …, all driven by
`Date.now()`), and the renderer/DOM fields (`selectedUnit`, `validMoves`,
colors).  Everything else follows the source line by line.
-/

namespace Smalltx

/-- Unit type catalog entry (src/state.js `UnitTypes`). -/
structure UnitType where
  id : Nat
  name : String
  symbol : String
deriving DecidableEq

/-- The fixed catalog of 11 unit types (src/state.js lines 2–17). -/
def UnitTypes.ARCHERS : UnitType := ⟨1, "Archers", "🏹"⟩

def UnitTypes.CANNON : UnitType := ⟨2, "Cannon", "🚀"⟩

def UnitTypes.MOUNTED : UnitType := ⟨3, "Mounted", "🐴"⟩

def UnitTypes.ASSAULT_BEASTS : UnitType := ⟨4, "Assault Beasts", "🐘"⟩

def UnitTypes.SPEARS : UnitType := ⟨5, "Spears", "⚔️"⟩

def UnitTypes.JESTERS : UnitType := ⟨6, "Jesters", "🤡"⟩

def UnitTypes.MUSKETS : UnitType := ⟨7, "Muskets", "🔫"⟩

def UnitTypes.AERIAL : UnitType := ⟨8, "Aerial", "🦅"⟩

def UnitTypes.COMMANDER : UnitType := ⟨9, "Commander", "👑"⟩

def UnitTypes.MILITIA : UnitType := ⟨10, "Militia", "🗽"⟩

def UnitTypes.BATTERY_RAM : UnitType := ⟨11, "Battery Ram", "🐏"⟩

/-- Game phases (src/state.js `GamePhase`). -/
inductive GamePhase where
  | SETUP
  | FACTION_1
  | FACTION_2
  | ABILITY_TARGETING
  | RESOLUTION_COMBAT
  | RESOLUTION_MELEE
  | RESOLUTION_RANGED
  | RESOLUTION_CASTLE
  | GAME_OVER
deriving DecidableEq

/-- A board cell `{row, col}` as the source passes hexes around. -/
structure Hex where
  row : Int
  col : Int
deriving DecidableEq

/-- A unit as built by `createUnit` (src/state.js lines 39–65); the
presentation fields `color` and the animation slots are elided. -/
structure GameUnit where
  id : Nat
  type : UnitType
  faction : Nat
  row : Int
  col : Int
  damage : Nat
  maxHp : Nat
  movedThisTurn : Bool
  lastTarget : Option Nat
  number : Nat
deriving DecidableEq

/-- The rule-relevant fields of the game state aggregate
(src/state.js `createGameState`); log, animation and renderer-cache fields
are elided, and the two JS `Set`s become lists of unit ids. -/
structure GameState where
  phase : GamePhase
  currentPlayer : Nat
  round : Nat
  units : List GameUnit
  destroyedUnits1 : List GameUnit
  destroyedUnits2 : List GameUnit
  castleDamage1 : Nat
  castleDamage2 : Nat
  consecutiveDamageRounds1 : Nat
  consecutiveDamageRounds2 : Nat
  batteryRamWin : Option Nat
  pendingSecondMove : Option Nat
  activatedUnits : List Nat
  unitsInCombatThisTurn : List Nat
deriving DecidableEq

/-! ## Geometry (src/state.js lines 128–169) -/

/-- `hexDistance` (src/state.js lines 128–140): offset → cube coordinates,
`Math.floor(col / 2)` is floor division, distance is the max of the three
cube-coordinate absolute differences. -/
def hexDistance (r1 c1 r2 c2 : Int) : Nat :=
  let x1 := c1
  let z1 := r1 - Int.fdiv c1 2
  let y1 := -x1 - z1
  let x2 := c2
  let z2 := r2 - Int.fdiv c2 2
  let y2 := -x2 - z2
  max (x1 - x2).natAbs (max (y1 - y2).natAbs (z1 - z2).natAbs)

/-- `getAdjacentHexes` (src/state.js lines 144–153): flat-top hex grid,
column-offset, odd columns offset down; results filtered to the 6×6 board.
JS `col % 2 === 1` is the truncating remainder. -/
def getAdjacentHexes (row col : Int) : List Hex :=
  let isOddCol := Int.tmod col 2 = 1
  let offsets : List (Int × Int) :=
    if isOddCol then [(0, -1), (1, -1), (-1, 0), (1, 0), (0, 1), (1, 1)]
    else [(-1, -1), (0, -1), (-1, 0), (1, 0), (-1, 1), (0, 1)]
  (offsets.map (fun p => Hex.mk (row + p.1) (col + p.2))).filter
    (fun h => decide (0 ≤ h.row ∧ h.row < 6 ∧ 0 ≤ h.col ∧ h.col < 6))

/-- `isValidHex` (src/state.js lines 156–158). -/
def isValidHex (row col : Int) : Bool :=
  decide (0 ≤ row ∧ row < 6 ∧ 0 ≤ col ∧ col < 6)

/-- `getCastleRow` (src/state.js lines 161–163). -/
def getCastleRow (faction : Nat) : Int :=
  if faction = 1 then 5 else 0

/-- `isInEnemyCastle` (src/state.js lines 166–169). -/
def isInEnemyCastle (u : GameUnit) : Bool :=
  let enemyCastleRow := getCastleRow (if u.faction = 1 then 2 else 1)
  u.row == enemyCastleRow

/-! ## Unit and state basics (src/state.js lines 68–212) -/

/-- `isAlive` (src/state.js lines 123–125). -/
def isAlive (u : GameUnit) : Bool :=
  u.damage < u.maxHp

/-- `getUnitsAt` (src/state.js lines 107–109). -/
def getUnitsAt (state : GameState) (row col : Int) : List GameUnit :=
  state.units.filter (fun u =>
    decide (u.row = row) && decide (u.col = col) && decide (u.damage < u.maxHp))

/-- `getFactionUnitsAt` (src/state.js lines 112–114). -/
def getFactionUnitsAt (state : GameState) (row col : Int) (faction : Nat) :
    List GameUnit :=
  (getUnitsAt state row col).filter (fun u => u.faction == faction)

/-- `isEngaged` (src/state.js lines 117–120). -/
def isEngaged (state : GameState) (u : GameUnit) : Bool :=
  let enemyFaction := if u.faction = 1 then 2 else 1
  0 < (getFactionUnitsAt state u.row u.col enemyFaction).length

/-- `getUnitDisplayName` (src/state.js lines 68–80): counts the units of the
same (faction, type) in `state.units` — with no liveness filter — and appends
`#number` when there is more than one. -/
def getUnitDisplayName (state : GameState) (u : GameUnit) : String :=
  let sameTypeUnits := state.units.filter (fun x =>
    decide (x.faction = u.faction) && decide (x.type.id = u.type.id))
  if 1 < sameTypeUnits.length then
    u.type.symbol ++ " " ++ u.type.name ++ " #" ++ toString u.number
  else
    u.type.symbol ++ " " ++ u.type.name

/-- `applyDamage` (src/state.js lines 172–191): `unit.damage += amount`, no
clamping; the unit object is shared with `state.units`, so the embedding
updates the entry with that id.  Logging and the hit animation are elided. -/
def applyDamage (state : GameState) (unitId : Nat) (amount : Nat) : GameState :=
  { state with
    units := state.units.map (fun u =>
      if u.id = unitId then { u with damage := u.damage + amount } else u) }

/-- `removeDeadUnits` (src/state.js lines 194–212): each dead unit is pushed
onto the OPPOSING faction's destroyed list, then the live list is filtered by
`isAlive`. -/
def removeDeadUnits (state : GameState) : GameState :=
  let deadUnits := state.units.filter (fun u => !isAlive u)
  { state with
    destroyedUnits1 := state.destroyedUnits1 ++ deadUnits.filter (fun u => !(u.faction == 1)),
    destroyedUnits2 := state.destroyedUnits2 ++ deadUnits.filter (fun u => u.faction == 1),
    units := state.units.filter (fun u => isAlive u) }

/-! ## Castle damage and win evaluation (src/state.js lines 215–300) -/

/-- The `unitsInCastle` filter of `calculateCastleDamage` for one faction
(src/state.js lines 222–226): the faction's own living units standing in the
ENEMY's castle row. -/
def unitsInEnemyCastle (state : GameState) (faction : Nat) : List GameUnit :=
  let enemyFaction := if faction = 1 then 2 else 1
  let enemyCastleRow := getCastleRow enemyFaction
  state.units.filter (fun u =>
    decide (u.faction = faction) && decide (u.row = enemyCastleRow) && isAlive u)

/-- The Battery-Ram scan of `calculateCastleDamage` (src/state.js lines
229–235).  The source loop returns at the first unengaged Battery Ram; its
only effect is `batteryRamWin := faction`, so `any` gives the same outcome. -/
def hasUnengagedBatteryRam (state : GameState) (faction : Nat) : Bool :=
  (unitsInEnemyCastle state faction).any (fun u =>
    decide (u.type.id = UnitTypes.BATTERY_RAM.id) && !isEngaged state u)

/-- Add `amount` to the given faction's cumulative castle damage
(`state.castleDamage[enemyFaction] += castleDamageDealt`). -/
def addCastleDamage (state : GameState) (faction : Nat) (amount : Nat) : GameState :=
  if faction = 1 then { state with castleDamage1 := state.castleDamage1 + amount }
  else { state with castleDamage2 := state.castleDamage2 + amount }

/-- One iteration of `calculateCastleDamage`'s `for (const faction of [1, 2])`
loop (src/state.js lines 217–260).  Returns the updated state and `true` when
the source hit its early `return` (an unengaged Battery Ram). -/
def calculateCastleDamageStep (state : GameState) (faction : Nat) :
    GameState × Bool :=
  let enemyFaction := if faction = 1 then 2 else 1
  let unitsInCastle := unitsInEnemyCastle state faction
  if hasUnengagedBatteryRam state faction then
    ({ state with batteryRamWin := some faction }, true)
  else
    let castleDamageDealt := (unitsInCastle.filter (fun u => !isEngaged state u)).length
    if 0 < castleDamageDealt then
      (addCastleDamage state enemyFaction castleDamageDealt, false)
    else (state, false)

/-- `calculateCastleDamage` (src/state.js lines 215–261): faction 1's
iteration runs first; an early return skips everything after it. -/
def calculateCastleDamage (state : GameState) : GameState :=
  let step1 := calculateCastleDamageStep state 1
  if step1.2 then step1.1
  else (calculateCastleDamageStep step1.1 2).1

/-- The `{winner, reason}` object `checkWinCondition` returns. -/
structure WinResult where
  winner : Nat
  reason : String
deriving DecidableEq

/-- `checkWinCondition` (src/state.js lines 264–300).  The source mutates the
`consecutiveDamageRounds` counters before the streak checks; the embedding
returns the updated state together with the verdict. -/
def checkWinCondition (state : GameState) : GameState × Option WinResult :=
  match state.batteryRamWin with
  | some f => (state, some ⟨f, "Battery Ram crashed through enemy castle!"⟩)
  | none =>
    let diff : Int := (state.castleDamage1 : Int) - (state.castleDamage2 : Int)
    if 2 ≤ diff then (state, some ⟨2, "Player 1 castle took 2+ more damage"⟩)
    else if diff ≤ -2 then (state, some ⟨1, "Player 2 castle took 2+ more damage"⟩)
    else
      let state :=
        if diff = 1 then
          { state with consecutiveDamageRounds1 := state.consecutiveDamageRounds1 + 1,
                       consecutiveDamageRounds2 := 0 }
        else if diff = -1 then
          { state with consecutiveDamageRounds2 := state.consecutiveDamageRounds2 + 1,
                       consecutiveDamageRounds1 := 0 }
        else
          { state with consecutiveDamageRounds1 := 0, consecutiveDamageRounds2 := 0 }
      if 2 ≤ state.consecutiveDamageRounds1 then
        (state, some ⟨2, "Player 1 had more damage for 2 consecutive rounds"⟩)
      else if 2 ≤ state.consecutiveDamageRounds2 then
        (state, some ⟨1, "Player 2 had more damage for 2 consecutive rounds"⟩)
      else (state, none)

/-- The win evaluator's outcome as claim C2 describes it: the two streak
counters after the evaluation and the winning faction, if any. -/
structure WinEval where
  streak1 : Nat
  streak2 : Nat
  winner : Option Nat
deriving DecidableEq

/-- Claim C2's description of the win evaluator, written from the claim's own
words (instant-win marker; `diff ≥ 2` / `diff ≤ -2`; streak increments and
resets; a streak reaching 2 for a faction makes the other the winner), to be
compared with `checkWinCondition`. -/
def winEvaluatorSpec (instantWin : Option Nat) (cd1 cd2 streak1 streak2 : Nat) :
    WinEval :=
  match instantWin with
  | some f => ⟨streak1, streak2, some f⟩
  | none =>
    let diff : Int := (cd1 : Int) - (cd2 : Int)
    if 2 ≤ diff then ⟨streak1, streak2, some 2⟩
    else if diff ≤ -2 then ⟨streak1, streak2, some 1⟩
    else
      let s1 := if diff = 1 then streak1 + 1 else 0
      let s2 := if diff = -1 then streak2 + 1 else 0
      if 2 ≤ s1 then ⟨s1, s2, some 2⟩
      else if 2 ≤ s2 then ⟨s1, s2, some 1⟩
      else ⟨s1, s2, none⟩

/-! ## Engaged groups and combat resolution (src/state.js lines 309–413) -/

/-- One entry of `getEngagedGroups`' result. -/
structure EngagedGroup where
  hex : Hex
  faction1 : List GameUnit
  faction2 : List GameUnit
deriving DecidableEq

/-- The loop of `getEngagedGroups` (src/state.js lines 313–332), carrying the
`processedHexes` set; a hex is marked processed only when a group is created
for it, exactly as in the source. -/
def getEngagedGroupsAux (state : GameState) :
    List GameUnit → List Hex → List EngagedGroup
  | [], _ => []
  | u :: rest, processed =>
    if !isAlive u then getEngagedGroupsAux state rest processed
    else
      let hex := Hex.mk u.row u.col
      if decide (hex ∈ processed) then getEngagedGroupsAux state rest processed
      else
        let faction1Units := getFactionUnitsAt state u.row u.col 1
        let faction2Units := getFactionUnitsAt state u.row u.col 2
        if 0 < faction1Units.length ∧ 0 < faction2Units.length then
          ⟨hex, faction1Units, faction2Units⟩ ::
            getEngagedGroupsAux state rest (hex :: processed)
        else getEngagedGroupsAux state rest processed

/-- `getEngagedGroups` (src/state.js lines 309–335). -/
def getEngagedGroups (state : GameState) : List EngagedGroup :=
  getEngagedGroupsAux state state.units []

/-- A damage-allocation collaborator (`showAllocationModal`): enemies, total
damage, attacking faction ↦ a list of (enemy id, damage) entries, the order
the source's `for (const [enemyId, damage] of allocation)` iterates. -/
def Allocator : Type :=
  List GameUnit → Nat → Nat → List (Nat × Nat)

/-- A side's total outgoing damage (src/state.js lines 356–357 and 384–385):
`reduce((sum, u) => sum + (u.type.id === MILITIA.id ? 3 : 2), 0)`. -/
def totalCombatDamage (side : List GameUnit) : Nat :=
  side.foldl (fun sum u => sum + (if u.type.id = UnitTypes.MILITIA.id then 3 else 2)) 0

/-- One step of the allocation loop (src/state.js lines 365–370): look the id
up among the group's enemies, apply only positive damage. -/
def allocStep (enemies : List GameUnit) (state : GameState) (entry : Nat × Nat) :
    GameState :=
  match enemies.find? (fun u => u.id == entry.1) with
  | some _ => if 0 < entry.2 then applyDamage state entry.1 entry.2 else state
  | none => state

/-- The even-split fallback (src/state.js lines 373–378):
`forEach((enemy, idx) => applyDamage(enemy, floor(total/n) + (idx < total%n ? 1 : 0)))`. -/
def distributeEvenlyAux (damagePerEnemy remainder : Nat) :
    GameState → List GameUnit → Nat → GameState
  | state, [], _ => state
  | state, enemy :: rest, idx =>
    distributeEvenlyAux damagePerEnemy remainder
      (applyDamage state enemy.id (damagePerEnemy + (if idx < remainder then 1 else 0)))
      rest (idx + 1)

/-- Damage application of one attacking side to the opposing side of a group
(src/state.js lines 359–379 / 387–407): one enemy gets the full total;
several go through the allocation collaborator when supplied, else through
the even-split fallback. -/
def distributeDamage (state : GameState) (defenders : List GameUnit)
    (totalDamage : Nat) (attackingFaction : Nat) (allocator : Option Allocator) :
    GameState :=
  match defenders with
  | [d] => applyDamage state d.id totalDamage
  | _ =>
    match allocator with
    | some alloc =>
      (alloc defenders totalDamage attackingFaction).foldl (allocStep defenders) state
    | none =>
      let damagePerEnemy := totalDamage / defenders.length
      let remainder := totalDamage % defenders.length
      distributeEvenlyAux damagePerEnemy remainder state defenders 0

/-- Processing of one engaged hex (src/state.js lines 349–408): mark every
participant, then faction 1's damage to faction 2, then faction 2's damage to
faction 1 — both totals computed from the group's captured unit lists. -/
def processGroup (allocator : Option Allocator) (state : GameState)
    (group : EngagedGroup) : GameState :=
  let state := { state with
    unitsInCombatThisTurn := state.unitsInCombatThisTurn
      ++ group.faction1.map (fun u => u.id) ++ group.faction2.map (fun u => u.id) }
  let state :=
    if 0 < group.faction1.length ∧ 0 < group.faction2.length then
      distributeDamage state group.faction2 (totalCombatDamage group.faction1) 1 allocator
    else state
  if 0 < group.faction2.length ∧ 0 < group.faction1.length then
    distributeDamage state group.faction1 (totalCombatDamage group.faction2) 2 allocator
  else state

/-- `resolveCombatAsync` (src/state.js lines 338–413): with no engagements the
source returns before `removeDeadUnits`; otherwise every group is processed
and only then are the dead removed. -/
def resolveCombatAsync (state : GameState) (showAllocationModal : Option Allocator) :
    GameState :=
  let groups := getEngagedGroups state
  if groups.length = 0 then state
  else removeDeadUnits (groups.foldl (processGroup showAllocationModal) state)

/-! ## Unit abilities (src/state.js lines 426–602) -/

/-- `getArchersVolleyTargets` (src/state.js lines 426–442): living enemies at
distance (0, 2]. -/
def getArchersVolleyTargets (state : GameState) (u : GameUnit) : List GameUnit :=
  if u.type.id ≠ UnitTypes.ARCHERS.id then []
  else
    let maxRange := 2
    state.units.filter (fun enemy =>
      isAlive enemy && !(enemy.faction == u.faction) &&
        (let distance := hexDistance u.row u.col enemy.row enemy.col
         decide (0 < distance) && decide (distance ≤ maxRange)))

/-- `calculateArchersVolleyDamage` (src/state.js lines 445–457): base 2, −1 if
moved, −1 if a remembered last target exists and differs from this target,
`Math.max(0, damage)`. -/
def calculateArchersVolleyDamage (u : GameUnit) (target : GameUnit) : Nat :=
  let damage : Int := 2
  let damage := if u.movedThisTurn then damage - 1 else damage
  let damage :=
    match u.lastTarget with
    | some lt => if lt ≠ target.id then damage - 1 else damage
    | none => damage
  (max 0 damage).toNat

/-- Claim C5's damage formula, written from the claim's own words: base 2,
minus 1 if the unit moved this turn, minus 1 if this target differs from the
unit's remembered last target, floored at 0. -/
def volleyDamageSpec (u : GameUnit) (target : GameUnit) : Nat :=
  let movedPenalty : Int := if u.movedThisTurn then 1 else 0
  let newTargetPenalty : Int :=
    match u.lastTarget with
    | some lt => if lt ≠ target.id then 1 else 0
    | none => 0
  (max 0 (2 - movedPenalty - newTargetPenalty)).toNat

/-- `getCannonMortarTargets` (src/state.js lines 460–479): nothing if the
cannon moved; else living enemies at distance (0, 2]. -/
def getCannonMortarTargets (state : GameState) (u : GameUnit) : List GameUnit :=
  if u.type.id ≠ UnitTypes.CANNON.id then []
  else if u.movedThisTurn then []
  else
    let maxRange := 2
    state.units.filter (fun enemy =>
      isAlive enemy && !(enemy.faction == u.faction) &&
        (let distance := hexDistance u.row u.col enemy.row enemy.col
         decide (0 < distance) && decide (distance ≤ maxRange)))

/-- `canMountedCharge` (src/state.js lines 515–518). -/
def canMountedCharge (u : GameUnit) (distance : Nat) : Bool :=
  if u.type.id ≠ UnitTypes.MOUNTED.id then false else distance ≤ 2

/-- `applyMountedChargeBonus` (src/state.js lines 521–532): no-op for
non-Mounted units; 2 bonus damage exactly when the supplied `distanceMoved`
equals 2.  The unit object argument becomes a lookup by id. -/
def applyMountedChargeBonus (state : GameState) (unitId targetId : Nat)
    (distanceMoved : Nat) : GameState :=
  match state.units.find? (fun x => x.id == unitId) with
  | none => state
  | some u =>
    if u.type.id ≠ UnitTypes.MOUNTED.id then state
    else if distanceMoved = 2 then applyDamage state targetId 2
    else state

/-- `getSpearsPierceTargets` (src/state.js lines 535–551): living enemies at
distance exactly 1. -/
def getSpearsPierceTargets (state : GameState) (u : GameUnit) : List GameUnit :=
  if u.type.id ≠ UnitTypes.SPEARS.id then []
  else
    state.units.filter (fun enemy =>
      isAlive enemy && !(enemy.faction == u.faction) &&
        decide (hexDistance u.row u.col enemy.row enemy.col = 1))

/-- `applySpearCounterCharge` (src/state.js lines 559–569): only a Spears unit
countering a Mounted attacker; 3 damage to the attacker. -/
def applySpearCounterCharge (state : GameState) (unitId attackerId : Nat) :
    GameState :=
  match state.units.find? (fun x => x.id == unitId),
        state.units.find? (fun x => x.id == attackerId) with
  | some u, some attacker =>
    if u.type.id ≠ UnitTypes.SPEARS.id then state
    else if attacker.type.id ≠ UnitTypes.MOUNTED.id then state
    else applyDamage state attackerId 3
  | _, _ => state

/-- `getJestersTauntTargets` (src/state.js lines 572–588): living enemies at
distance exactly 1. -/
def getJestersTauntTargets (state : GameState) (u : GameUnit) : List GameUnit :=
  if u.type.id ≠ UnitTypes.JESTERS.id then []
  else
    state.units.filter (fun enemy =>
      isAlive enemy && !(enemy.faction == u.faction) &&
        decide (hexDistance u.row u.col enemy.row enemy.col = 1))

/-! ## Movement and the phase machine (src/game.js) -/

/-- The COMMANDER branch of `getValidMoves` (src/game.js lines 149–170):
distinct hexes of other living friendly units at distance (0, 2], in
first-seen order (the `seenHexes` set). -/
def commanderTargetHexes (state : GameState) (u : GameUnit) : List Hex :=
  (state.units.foldl (fun acc friendlyUnit =>
    if friendlyUnit.id = u.id then acc
    else if friendlyUnit.faction ≠ u.faction then acc
    else if friendlyUnit.maxHp ≤ friendlyUnit.damage then acc
    else
      let distance := hexDistance u.row u.col friendlyUnit.row friendlyUnit.col
      if 0 < distance ∧ distance ≤ 2 then
        let hex := Hex.mk friendlyUnit.row friendlyUnit.col
        if hex ∈ acc then acc else acc ++ [hex]
      else acc) [])

/-- The AERIAL branch of `getValidMoves` (src/game.js lines 173–198): every
empty hex on the board except the enemy castle row and the current hex,
scanned row-major. -/
def aerialMoves (state : GameState) (u : GameUnit) : List Hex :=
  let enemyCastleRow : Int := if u.faction = 1 then 0 else 5
  ((List.range 6).map (fun r => (r : Int))).foldl (fun acc row =>
    acc ++ ((List.range 6).map (fun c => (c : Int))).filterMap (fun col =>
      if row = u.row ∧ col = u.col then none
      else if row = enemyCastleRow then none
      else if (state.units.filter (fun x =>
          decide (x.row = row) && decide (x.col = col) &&
            decide (x.damage < x.maxHp))).length = 0 then
        some (Hex.mk row col)
      else none)) []

/-- `getValidMoves` (src/game.js lines 140–252).  Engaged units other than
Assault Beasts cannot move; Commander and Aerial have their special target
sets; every other type runs a BFS whose `maxMovement` is 1 for every type
that reaches it (the source sets 1 for Mounted on both its moves and 1 by
default), so the BFS yields exactly the in-bounds adjacent hexes holding
fewer than 2 friendly units, and the current hex is appended last ("can also
stay in place"). -/
def getValidMoves (state : GameState) (u : GameUnit) : List Hex :=
  if isEngaged state u && !(u.type.id == UnitTypes.ASSAULT_BEASTS.id) then []
  else if u.type.id == UnitTypes.COMMANDER.id then commanderTargetHexes state u
  else if u.type.id == UnitTypes.AERIAL.id then aerialMoves state u
  else
    ((getAdjacentHexes u.row u.col).filter (fun hex =>
      (getFactionUnitsAt state hex.row hex.col u.faction).length < 2))
      ++ [Hex.mk u.row u.col]

/-- The relocation part of `moveUnit` (src/game.js lines 851–853): set the new
position and the moved flag on the unit with this id. -/
def moveUnitApply (state : GameState) (unitId : Nat) (newRow newCol : Int) :
    GameState :=
  { state with
    units := state.units.map (fun x =>
      if x.id = unitId then { x with row := newRow, col := newCol, movedThisTurn := true }
      else x) }

/-- The activation bookkeeping of `moveUnit` (src/game.js lines 856–863): a
Mounted first move only sets `pendingSecondMove`; anything else marks the
unit activated and clears the pending marker. -/
def moveUnitFlags (state : GameState) (unitId : Nat)
    (isMounted isMountedSecondMove : Bool) : GameState :=
  if isMounted && !isMountedSecondMove then
    { state with pendingSecondMove := some unitId }
  else
    { state with activatedUnits := state.activatedUnits ++ [unitId],
                 pendingSecondMove := none }

/-- The Spears counter-charge scan of `moveUnit` (src/game.js lines 875–884):
living unengaged enemy Spears in the hexes adjacent to the charge
destination, in scan order. -/
def findCounterChargingSpears (state : GameState) (newRow newCol : Int)
    (enemyFaction : Nat) : List GameUnit :=
  (getAdjacentHexes newRow newCol).foldl (fun acc adjHex =>
    acc ++ (getFactionUnitsAt state adjHex.row adjHex.col enemyFaction).filter
      (fun x => decide (x.type.id = UnitTypes.SPEARS.id) &&
        decide (x.damage < x.maxHp) && !isEngaged state x)) []

/-- `moveUnit` (src/game.js lines 831–913).  The source computes
`distanceMoved` at line 836 but never uses it: the charge call at lines 896
and 905 passes the literal `2`.  The unit-picker modal for a multi-enemy
charge becomes the `picker` collaborator (`none` = modal still open, bonus
not yet applied, matching the source's early return into a callback). -/
def moveUnit (state : GameState) (unitId : Nat) (newRow newCol : Int)
    (picker : List GameUnit → Option GameUnit) : GameState :=
  match state.units.find? (fun x => x.id == unitId) with
  | none => state
  | some u =>
    let isMounted := decide (u.type.id = UnitTypes.MOUNTED.id)
    let isMountedSecondMove := isMounted && u.movedThisTurn
    let st := moveUnitFlags (moveUnitApply state unitId newRow newCol)
      unitId isMounted isMountedSecondMove
    let enemyFaction := if u.faction = 1 then 2 else 1
    let enemiesAtHex := getFactionUnitsAt st newRow newCol enemyFaction
    if 0 < enemiesAtHex.length then
      if isMountedSecondMove then
        match findCounterChargingSpears st newRow newCol enemyFaction with
        | spear :: _ => applySpearCounterCharge st spear.id unitId
        | [] =>
          if 1 < enemiesAtHex.length then
            match picker enemiesAtHex with
            | some selectedEnemy => applyMountedChargeBonus st unitId selectedEnemy.id 2
            | none => st
          else
            match enemiesAtHex with
            | [e] => applyMountedChargeBonus st unitId e.id 2
            | _ => st
      else st
    else st

/-- The per-unit test of `getUnitsNeedingAbilityTargets` (src/game.js lines
919–951): dead units are skipped; Spears Pierce and Archers Volley when not
engaged with a non-empty target set, Cannon Mortar additionally only when the
cannon did not move.  The source's three sequential `if … continue` pushes
are this disjunction (a unit has one type name, so at most one fires). -/
def unitNeedsAbilityTargets (state : GameState) (u : GameUnit) : Bool :=
  if u.maxHp ≤ u.damage then false
  else
    (u.type.name == "Spears" && !isEngaged state u &&
      decide (0 < (getSpearsPierceTargets state u).length))
    || (u.type.name == "Archers" && !isEngaged state u &&
      decide (0 < (getArchersVolleyTargets state u).length))
    || (u.type.name == "Cannon" && !u.movedThisTurn && !isEngaged state u &&
      decide (0 < (getCannonMortarTargets state u).length))

/-- `getUnitsNeedingAbilityTargets` (src/game.js lines 916–954). -/
def getUnitsNeedingAbilityTargets (state : GameState) : List GameUnit :=
  state.units.filter (unitNeedsAbilityTargets state)

/-- The phase `endPhase` moves to when `Faction2Move` ends (src/game.js lines
1047–1089): `AbilityTargeting` when the scan found a unit, else straight to
`ResolutionCombat`. -/
def endPhaseFaction2Transition (state : GameState) : GamePhase :=
  if 0 < (getUnitsNeedingAbilityTargets state).length then
    GamePhase.ABILITY_TARGETING
  else GamePhase.RESOLUTION_COMBAT

/-! ## Concrete scenario states used by witnesses and counterexamples -/

/-- A fresh unit as `createUnit` returns it (damage 0, maxHp 5, moved false,
no last target), at a caller-chosen id and sequence number. -/
def mkUnit (id : Nat) (type : UnitType) (faction : Nat) (row col : Int)
    (damage : Nat) (number : Nat) : GameUnit :=
  ⟨id, type, faction, row, col, damage, 5, false, none, number⟩

/-- A game state holding the given units, otherwise as `createGameState`
built it at the end of faction 2's movement phase. -/
def baseState (units : List GameUnit) : GameState :=
  ⟨GamePhase.FACTION_2, 1, 1, units, [], [], 0, 0, 0, 0, none, none, [], []⟩

/-- C1 scenario: one Militia attacker against two defenders. -/
def c1Militia : GameUnit := mkUnit 10 UnitTypes.MILITIA 1 2 2 0 1

def c1DefenderA : GameUnit := mkUnit 20 UnitTypes.SPEARS 2 2 2 0 1

def c1DefenderB : GameUnit := mkUnit 21 UnitTypes.ARCHERS 2 2 2 0 1

def c1Defenders : List GameUnit := [c1DefenderA, c1DefenderB]

def c1State : GameState := baseState [c1Militia, c1DefenderA, c1DefenderB]

/-- C3 scenario: an unengaged Mounted unit with an adjacent enemy. -/
def c3Mounted : GameUnit := mkUnit 1 UnitTypes.MOUNTED 1 2 2 0 1

def c3Enemy : GameUnit := mkUnit 2 UnitTypes.MILITIA 2 2 3 0 1

def c3State : GameState := baseState [c3Mounted, c3Enemy]

/-- The Mounted unit after its first (stay-in-place) move. -/
def c3MountedMoved : GameUnit :=
  { c3Mounted with row := 2, col := 2, movedThisTurn := true }

/-- The state after the Mounted unit's first move: a no-op to its own hex,
covering 0 hex-steps. -/
def c3State1 : GameState := moveUnit c3State 1 2 2 (fun _ => none)

/-- C4 scenario: a faction-1 unit scoring castle damage in row 0 while
faction 2 has an unengaged Battery Ram in row 5. -/
def c4Spears : GameUnit := mkUnit 1 UnitTypes.SPEARS 1 0 0 0 1

def c4Ram : GameUnit := mkUnit 2 UnitTypes.BATTERY_RAM 2 5 5 0 1

def c4State : GameState := baseState [c4Spears, c4Ram]

/-- C4 witness of the faction-1 side: an unengaged faction-1 Battery Ram in
row 0. -/
def c4RamState : GameState :=
  baseState [mkUnit 1 UnitTypes.BATTERY_RAM 1 0 0 0 1, c4Spears, c4Ram]

/-- C6 scenario: an unengaged Jester with an adjacent living enemy, and no
Spears/Archers/Cannon on the board. -/
def c6Jester : GameUnit := mkUnit 1 UnitTypes.JESTERS 1 2 2 0 1

def c6Enemy : GameUnit := mkUnit 2 UnitTypes.MILITIA 2 2 3 0 1

def c6State : GameState := baseState [c6Jester, c6Enemy]

/-- C7 scenario: a destroyed-but-not-yet-removed Archer plus one living
Archer of the same faction. -/
def c7DeadArcher : GameUnit := mkUnit 1 UnitTypes.ARCHERS 1 0 0 5 1

def c7LiveArcher : GameUnit := mkUnit 2 UnitTypes.ARCHERS 1 0 1 0 2

def c7State : GameState := baseState [c7DeadArcher, c7LiveArcher]

/-- C5 scenario: a moved Archer remembering a different last target. -/
def c5Unit : GameUnit :=
  ⟨30, UnitTypes.ARCHERS, 1, 2, 2, 0, 5, true, some 99, 1⟩

def c5Target : GameUnit := mkUnit 31 UnitTypes.MILITIA 2 2 3 0 1

/-- C9 scenario: two faction-1 Militia sharing a hex with one faction-2
Militia.  The 6 damage from faction 1 destroys the faction-2 unit, whose own
3 outgoing damage is nevertheless applied afterwards. -/
def c9MilitiaA : GameUnit := mkUnit 1 UnitTypes.MILITIA 1 2 2 0 1

def c9MilitiaB : GameUnit := mkUnit 2 UnitTypes.MILITIA 1 2 2 0 2

def c9Enemy : GameUnit := mkUnit 3 UnitTypes.MILITIA 2 2 2 0 1

def c9State : GameState := baseState [c9MilitiaA, c9MilitiaB, c9Enemy]

/-- C10 scenario: one healthy unit to overload with damage. -/
def c10Unit : GameUnit := mkUnit 7 UnitTypes.SPEARS 1 2 2 0 1

def c10State : GameState := baseState [c10Unit]

/-! ## Helper definitions and lemmas -/

/-- The damage of the unit with the given id, if a unit with that id is
tracked in the live list (the source reads `unit.damage` off the shared
object; here the list entry is looked up). -/
def findDamage (state : GameState) (unitId : Nat) : Option Nat :=
  (state.units.find? (fun u => u.id == unitId)).map (fun u => u.damage)

/-- Every field of a unit except its accumulated damage: combat processing
preserves this projection of every live-list entry. -/
def unitKey (u : GameUnit) :
    Nat × UnitType × Nat × Int × Int × Nat × Bool × Option Nat × Nat :=
  (u.id, u.type, u.faction, u.row, u.col, u.maxHp, u.movedThisTurn, u.lastTarget, u.number)

theorem findDamage_applyDamage (s : GameState) (uid a tid : Nat) :
    findDamage (applyDamage s uid a) tid =
      if uid = tid then (findDamage s tid).map (fun d => d + a)
      else findDamage s tid := by
  unfold findDamage applyDamage
  rw [List.find?_map]
  have hp : ((fun u : GameUnit => u.id == tid) ∘ fun u : GameUnit =>
      if u.id = uid then { u with damage := u.damage + a } else u) =
      fun u : GameUnit => u.id == tid := by
    funext u
    by_cases h : u.id = uid <;> simp [h]
  rw [hp, Option.map_map]
  cases hf : s.units.find? (fun u => u.id == tid) with
  | none => simp
  | some u =>
    have hid : u.id = tid := by simpa using List.find?_some hf
    by_cases h : uid = tid
    · simp [Function.comp, hid, h]
    · have : ¬u.id = uid := by rw [hid]; exact fun hh => h hh.symm
      simp [Function.comp, this, h]

theorem findDamage_distributeEvenlyAux_notMem (dpe rem : Nat) :
    ∀ (rest : List GameUnit) (st : GameState) (idx tid : Nat),
      (∀ d ∈ rest, d.id ≠ tid) →
      findDamage (distributeEvenlyAux dpe rem st rest idx) tid = findDamage st tid := by
  intro rest
  induction rest with
  | nil => intro st idx tid _; rfl
  | cons d tl ih =>
    intro st idx tid h
    rw [distributeEvenlyAux,
      ih _ _ _ (fun e he => h e (List.mem_cons_of_mem _ he)),
      findDamage_applyDamage]
    have hd : d.id ≠ tid := h d (List.mem_cons_self _ _)
    simp [hd]

theorem findDamage_distributeEvenlyAux (dpe rem : Nat) :
    ∀ (rest : List GameUnit) (st : GameState) (idx i : Nat) (hi : i < rest.length),
      (rest.map (fun d => d.id)).Nodup →
      findDamage (distributeEvenlyAux dpe rem st rest idx) ((rest.get ⟨i, hi⟩).id) =
        (findDamage st ((rest.get ⟨i, hi⟩).id)).map
          (fun dmg => dmg + (dpe + if idx + i < rem then 1 else 0)) := by
  intro rest
  induction rest with
  | nil => intro st idx i hi; exact absurd hi (Nat.not_lt_zero i)
  | cons d tl ih =>
    intro st idx i hi hnd
    rw [List.map_cons, List.nodup_cons] at hnd
    obtain ⟨hdni, htl⟩ := hnd
    cases i with
    | zero =>
      have hne : ∀ e ∈ tl, e.id ≠ d.id := by
        intro e he hex
        exact hdni (hex ▸ List.mem_map_of_mem (fun x => x.id) he)
      have h0 : ((d :: tl).get ⟨0, hi⟩) = d := rfl
      rw [h0, distributeEvenlyAux,
        findDamage_distributeEvenlyAux_notMem dpe rem tl _ _ _ hne,
        findDamage_applyDamage, if_pos rfl]
      simp
    | succ j =>
      have hj : j < tl.length := Nat.lt_of_succ_lt_succ hi
      have hmem : ((d :: tl).get ⟨j + 1, hi⟩) = tl.get ⟨j, hj⟩ := rfl
      rw [hmem, distributeEvenlyAux, ih _ _ j hj htl, findDamage_applyDamage]
      have hdne : ¬d.id = (tl.get ⟨j, hj⟩).id := by
        intro hex
        exact hdni (hex ▸ List.mem_map_of_mem (fun x => x.id) (List.get_mem tl j hj))
      rw [if_neg hdne]
      have harith : idx + 1 + j = idx + (j + 1) := by omega
      rw [harith]

theorem unitKey_applyDamage (s : GameState) (uid a : Nat) :
    (applyDamage s uid a).units.map unitKey = s.units.map unitKey := by
  show (s.units.map _).map unitKey = _
  rw [List.map_map]
  have : (unitKey ∘ fun u : GameUnit =>
      if u.id = uid then { u with damage := u.damage + a } else u) = unitKey := by
    funext u
    by_cases h : u.id = uid <;> simp [unitKey, h]
  rw [this]

theorem unitKey_allocStep (enemies : List GameUnit) (st : GameState)
    (entry : Nat × Nat) :
    (allocStep enemies st entry).units.map unitKey = st.units.map unitKey := by
  unfold allocStep
  cases enemies.find? (fun u => u.id == entry.1) with
  | none => rfl
  | some _ =>
    by_cases h : 0 < entry.2
    · simp only [h, if_pos]
      exact unitKey_applyDamage st entry.1 entry.2
    · simp [h]

theorem unitKey_foldl_allocStep (enemies : List GameUnit) :
    ∀ (l : List (Nat × Nat)) (st : GameState),
      ((l.foldl (allocStep enemies) st).units).map unitKey = st.units.map unitKey := by
  intro l
  induction l with
  | nil => intro st; rfl
  | cons e tl ih =>
    intro st
    rw [List.foldl_cons, ih, unitKey_allocStep]

theorem unitKey_distributeEvenlyAux (dpe rem : Nat) :
    ∀ (rest : List GameUnit) (st : GameState) (idx : Nat),
      ((distributeEvenlyAux dpe rem st rest idx).units).map unitKey =
        st.units.map unitKey := by
  intro rest
  induction rest with
  | nil => intro st idx; rfl
  | cons d tl ih =>
    intro st idx
    rw [distributeEvenlyAux, ih, unitKey_applyDamage]

theorem unitKey_distributeDamage (st : GameState) (defenders : List GameUnit)
    (total f : Nat) (alloc : Option Allocator) :
    ((distributeDamage st defenders total f alloc).units).map unitKey =
      st.units.map unitKey := by
  unfold distributeDamage
  match defenders with
  | [d] => exact unitKey_applyDamage st d.id total
  | [] =>
    cases alloc with
    | some a => exact unitKey_foldl_allocStep [] _ st
    | none => exact unitKey_distributeEvenlyAux _ _ [] st 0
  | d1 :: d2 :: rest =>
    cases alloc with
    | some a => exact unitKey_foldl_allocStep _ _ st
    | none => exact unitKey_distributeEvenlyAux _ _ _ st 0

theorem unitKey_processGroup (alloc : Option Allocator) (st : GameState)
    (g : EngagedGroup) :
    ((processGroup alloc st g).units).map unitKey = st.units.map unitKey := by
  unfold processGroup
  dsimp only
  split
  · split
    · rw [unitKey_distributeDamage, unitKey_distributeDamage]
    · rw [unitKey_distributeDamage]
  · split
    · rw [unitKey_distributeDamage]
    · rfl

theorem unitKey_foldl_processGroup (alloc : Option Allocator) :
    ∀ (gs : List EngagedGroup) (st : GameState),
      ((gs.foldl (processGroup alloc) st).units).map unitKey =
        st.units.map unitKey := by
  intro gs
  induction gs with
  | nil => intro st; rfl
  | cons g tl ih =>
    intro st
    rw [List.foldl_cons, ih, unitKey_processGroup]

theorem foldl_add_eq_sum (f : GameUnit → Nat) :
    ∀ (l : List GameUnit) (n : Nat),
      l.foldl (fun sum u => sum + f u) n = n + (l.map f).sum := by
  intro l
  induction l with
  | nil => intro n; simp
  | cons d tl ih =>
    intro n
    rw [List.foldl_cons, ih, List.map_cons, List.sum_cons]
    omega

theorem find?_moveUnitApply (s : GameState) (uid : Nat) (r c : Int) (tid : Nat) :
    (moveUnitApply s uid r c).units.find? (fun x => x.id == tid) =
      (s.units.find? (fun x => x.id == tid)).map (fun x =>
        if x.id = uid then { x with row := r, col := c, movedThisTurn := true }
        else x) := by
  unfold moveUnitApply
  rw [List.find?_map]
  have hp : ((fun x : GameUnit => x.id == tid) ∘ fun x : GameUnit =>
      if x.id = uid then { x with row := r, col := c, movedThisTurn := true }
      else x) = fun x : GameUnit => x.id == tid := by
    funext x
    by_cases h : x.id = uid <;> simp [h]
  rw [hp]

/-! ## Claim theorems -/

/-- C1: in combat resolution each side's total outgoing damage is the sum over
its units of 3 for Militia-type units and 2 otherwise; a lone opposing unit
receives the full total; with more than one defender and no allocation
collaborator, defender `i` receives `total / count` damage plus one extra
point when `i < total % count`, in enumeration order. -/
theorem C1_engaged_combat_damage_split :
    (∀ side : List GameUnit,
      totalCombatDamage side =
        (side.map (fun u => if u.type.id = UnitTypes.MILITIA.id then 3 else 2)).sum) ∧
    (∀ (s : GameState) (d : GameUnit) (total attackingFaction : Nat)
        (allocator : Option Allocator),
      findDamage (distributeDamage s [d] total attackingFaction allocator) d.id =
        (findDamage s d.id).map (fun dmg => dmg + total)) ∧
    (∀ (s : GameState) (defenders : List GameUnit) (total attackingFaction i : Nat)
        (hi : i < defenders.length),
      1 < defenders.length →
      (defenders.map (fun d => d.id)).Nodup →
      findDamage (distributeDamage s defenders total attackingFaction none)
          ((defenders.get ⟨i, hi⟩).id) =
        (findDamage s ((defenders.get ⟨i, hi⟩).id)).map
          (fun dmg => dmg + (total / defenders.length +
            if i < total % defenders.length then 1 else 0))) := by
  refine ⟨?_, ?_, ?_⟩
  · intro side
    unfold totalCombatDamage
    rw [foldl_add_eq_sum, Nat.zero_add]
  · intro s d total f alloc
    show findDamage (applyDamage s d.id total) d.id = _
    rw [findDamage_applyDamage, if_pos rfl]
  · intro s defenders total f i hi hlen hnd
    match defenders, hi, hnd with
    | d1 :: d2 :: rest, hi, hnd =>
      show findDamage (distributeEvenlyAux
          (total / (d1 :: d2 :: rest).length) (total % (d1 :: d2 :: rest).length)
          s (d1 :: d2 :: rest) 0) _ = _
      rw [findDamage_distributeEvenlyAux _ _ (d1 :: d2 :: rest) s 0 i hi hnd]
      simp

/-- C1 witness: a lone Militia (total 3) against 2 defenders with no
allocator deals 2 to the first defender and 1 to the second. -/
theorem C1_engaged_combat_damage_split_witness :
    totalCombatDamage [c1Militia] = 3 ∧
    findDamage (distributeDamage c1State c1Defenders 3 1 none) 20 = some 2 ∧
    findDamage (distributeDamage c1State c1Defenders 3 1 none) 21 = some 1 := by
  have h1 := C1_engaged_combat_damage_split.1 [c1Militia]
  have h2 := C1_engaged_combat_damage_split.2.2 c1State c1Defenders 3 1 0
    (by decide) (by decide) (by decide)
  have h3 := C1_engaged_combat_damage_split.2.2 c1State c1Defenders 3 1 1
    (by decide) (by decide) (by decide)
  exact ⟨h1.trans (by decide), h2.trans (by decide), h3.trans (by decide)⟩

/-- C9: during combat resolution each side's outgoing total is computed from
the group's captured unit lists — changing the units' accumulated damage
arbitrarily does not change it — group processing never removes a unit (every
field but `damage` of every live-list entry is preserved), and the dead are
removed only once, after every engaged group has been processed; in the
concrete scenario a unit already at 6/5 damage still deals its full 3. -/
theorem C9_snapshot_totals_and_late_removal :
    (∀ (s : GameState) (alloc : Option Allocator),
      resolveCombatAsync s alloc =
        if (getEngagedGroups s).length = 0 then s
        else removeDeadUnits ((getEngagedGroups s).foldl (processGroup alloc) s)) ∧
    (∀ (alloc : Option Allocator) (gs : List EngagedGroup) (s : GameState),
      ((gs.foldl (processGroup alloc) s).units).map unitKey = s.units.map unitKey) ∧
    (∀ (side : List GameUnit) (f : GameUnit → Nat),
      totalCombatDamage (side.map (fun u => { u with damage := f u })) =
        totalCombatDamage side) ∧
    ((resolveCombatAsync c9State none).units.map (fun u => (u.id, u.damage)) =
        [(1, 2), (2, 1)] ∧
      (resolveCombatAsync c9State none).destroyedUnits1.map
          (fun u => (u.id, u.damage)) = [(3, 6)]) := by
  refine ⟨fun s alloc => rfl,
    fun alloc gs s => unitKey_foldl_processGroup alloc gs s, ?_, by decide⟩
  intro side f
  unfold totalCombatDamage
  rw [List.foldl_map]

/-- C10: `applyDamage` adds exactly the given amount with no clamping at
`maxHp` (so accumulated damage can strictly exceed it, as the 7/5 instance
shows), liveness is the predicate `damage < maxHp`, and dead-unit removal
filters by that same predicate. -/
theorem C10_damage_no_clamping :
    (∀ (s : GameState) (uid a tid : Nat),
      findDamage (applyDamage s uid a) tid =
        if uid = tid then (findDamage s tid).map (fun d => d + a)
        else findDamage s tid) ∧
    (findDamage (applyDamage c10State 7 7) 7 = some 7 ∧ c10Unit.maxHp = 5) ∧
    (∀ u : GameUnit, isAlive u = true ↔ u.damage < u.maxHp) ∧
    (∀ s : GameState,
      (removeDeadUnits s).units = s.units.filter (fun u => isAlive u)) := by
  refine ⟨findDamage_applyDamage, by decide, ?_, fun s => rfl⟩
  intro u
  simp [isAlive]

/-- C2: the win evaluator agrees with the claim's description: instant-win
marker first; `diff ≥ 2` → faction 2 wins, `diff ≤ −2` → faction 1 wins;
otherwise `diff = 1` / `−1` / `0` update the two consecutive-lead streaks as
described, and a streak reaching 2 for a faction makes the other faction the
winner; else no winner. -/
theorem C2_win_evaluator (s : GameState) :
    WinEval.mk (checkWinCondition s).1.consecutiveDamageRounds1
        (checkWinCondition s).1.consecutiveDamageRounds2
        ((checkWinCondition s).2.map (fun r => r.winner)) =
      winEvaluatorSpec s.batteryRamWin s.castleDamage1 s.castleDamage2
        s.consecutiveDamageRounds1 s.consecutiveDamageRounds2 := by
  unfold checkWinCondition winEvaluatorSpec
  cases s.batteryRamWin with
  | some f => rfl
  | none =>
    dsimp only
    split_ifs <;> first | rfl | omega

/-- C5: Archers volley damage is base 2, −1 if the unit moved this turn, −1
if this target differs from the unit's remembered last target, floored at 0;
in particular a moved unit firing at a target different from its remembered
one deals 0. -/
theorem C5_archers_volley_damage (u target : GameUnit) :
    calculateArchersVolleyDamage u target = volleyDamageSpec u target ∧
    (u.movedThisTurn = true →
      ∀ lt, u.lastTarget = some lt → lt ≠ target.id →
        calculateArchersVolleyDamage u target = 0) := by
  constructor
  · unfold calculateArchersVolleyDamage volleyDamageSpec
    cases u.lastTarget with
    | none =>
      by_cases hm : u.movedThisTurn <;> simp [hm]
    | some lt =>
      by_cases hm : u.movedThisTurn <;> by_cases hl : lt ≠ target.id <;>
        simp [hm, hl]
  · intro hm lt hl hne
    unfold calculateArchersVolleyDamage
    rw [hl]
    simp [hm, hne]

/-- C5 witness: a moved Archer remembering target 99 firing at target 31
deals 0 damage. -/
theorem C5_archers_volley_damage_witness :
    calculateArchersVolleyDamage c5Unit c5Target = 0 :=
  (C5_archers_volley_damage c5Unit c5Target).2 rfl 99 rfl (by decide)

/-- C8: for all in-bounds cells, `hexDistance` is 0 on equal cells, is
symmetric, is 0 only on equal cells, and every cell `getAdjacentHexes`
returns is at distance exactly 1. -/
theorem C8_hex_distance_properties :
    (∀ r c : Fin 6, hexDistance (r.val : Int) (c.val : Int) (r.val : Int) (c.val : Int) = 0) ∧
    (∀ r1 c1 r2 c2 : Fin 6,
      hexDistance (r1.val : Int) (c1.val : Int) (r2.val : Int) (c2.val : Int) =
        hexDistance (r2.val : Int) (c2.val : Int) (r1.val : Int) (c1.val : Int)) ∧
    (∀ r1 c1 r2 c2 : Fin 6,
      hexDistance (r1.val : Int) (c1.val : Int) (r2.val : Int) (c2.val : Int) = 0 →
        r1 = r2 ∧ c1 = c2) ∧
    (∀ r c : Fin 6, ∀ h : Hex, h ∈ getAdjacentHexes (r.val : Int) (c.val : Int) →
      hexDistance (r.val : Int) (c.val : Int) h.row h.col = 1) := by
  refine ⟨by decide, by decide, by decide, ?_⟩
  intro r c h hmem
  have hall : ∀ r c : Fin 6,
      ((getAdjacentHexes (r.val : Int) (c.val : Int)).all (fun hx =>
        decide (hexDistance (r.val : Int) (c.val : Int) hx.row hx.col = 1))) = true := by
    decide
  exact of_decide_eq_true (List.all_eq_true.mp (hall r c) h hmem)

/-- C8 witness: the zero-only-if-equal part at (0,0)–(0,0) and the adjacency
part at the neighbour (1,0) of (0,0). -/
theorem C8_hex_distance_properties_witness :
    ((0 : Fin 6) = 0 ∧ (0 : Fin 6) = 0) ∧
      hexDistance (((0 : Fin 6)).val : Int) (((0 : Fin 6)).val : Int)
        (Hex.mk 1 0).row (Hex.mk 1 0).col = 1 :=
  ⟨C8_hex_distance_properties.2.2.1 0 0 0 0 (by decide),
   C8_hex_distance_properties.2.2.2 0 0 (Hex.mk 1 0) (by decide)⟩

/-- C4 counterexample: faction 2's unengaged Battery Ram in faction 1's
castle row wins the game this round, yet faction 1's unit standing in
faction 2's castle row still adds 1 castle damage in the same evaluation —
the counting step is NOT bypassed entirely for the round. -/
theorem C4_battery_ram_counterexample :
    (calculateCastleDamage c4State).batteryRamWin = some 2 ∧
    c4State.castleDamage2 = 0 ∧
    (calculateCastleDamage c4State).castleDamage2 = 1 := by decide

/-- C4 (amended): castle-damage evaluation processes faction 1 and then
faction 2, returning at the first unengaged Battery Ram found.  A faction-1
ram therefore wins with no castle damage counted at all that round, while a
faction-2 ram wins after faction 1's units have already been counted against
faction 2's castle total; the winning check always precedes the counting for
the ram's own faction. -/
theorem C4_battery_ram_win (s : GameState) :
    (hasUnengagedBatteryRam s 1 = true →
      calculateCastleDamage s = { s with batteryRamWin := some 1 }) ∧
    (hasUnengagedBatteryRam s 1 = false →
      hasUnengagedBatteryRam s 2 = true →
      calculateCastleDamage s =
        { s with
          castleDamage2 := s.castleDamage2 +
            ((unitsInEnemyCastle s 1).filter (fun u => !isEngaged s u)).length,
          batteryRamWin := some 2 }) := by
  constructor
  · intro h
    unfold calculateCastleDamage calculateCastleDamageStep
    simp [h]
  · intro h1 h2
    have h2' : hasUnengagedBatteryRam
        (addCastleDamage s 2
          ((unitsInEnemyCastle s 1).filter (fun u => !isEngaged s u)).length) 2 = true := h2
    unfold calculateCastleDamage calculateCastleDamageStep
    by_cases hd : 0 < ((unitsInEnemyCastle s 1).filter (fun u => !isEngaged s u)).length
    · simp only [h1, Bool.false_eq_true, if_false, hd, if_true, h2']
      simp [addCastleDamage]
    · have hz : ((unitsInEnemyCastle s 1).filter (fun u => !isEngaged s u)).length = 0 :=
        Nat.eq_zero_of_not_pos hd
      simp only [h1, Bool.false_eq_true, if_false, hd, if_true]
      simp [h2, hz]

/-- C4 witness: the amended theorem at the concrete two-ram board. -/
theorem C4_battery_ram_win_witness :
    calculateCastleDamage c4RamState = { c4RamState with batteryRamWin := some 1 } ∧
    calculateCastleDamage c4State =
      { c4State with
        castleDamage2 := c4State.castleDamage2 +
          ((unitsInEnemyCastle c4State 1).filter (fun u => !isEngaged c4State u)).length,
        batteryRamWin := some 2 } :=
  ⟨(C4_battery_ram_win c4RamState).1 (by decide),
   (C4_battery_ram_win c4State).2 (by decide) (by decide)⟩

/-- C6 counterexample: an unengaged living Jester with a non-empty Taunt
target set is NOT included in the ability-targeting scan, and with no other
eligible units the phase goes straight to combat resolution instead of
`AbilityTargeting`. -/
theorem C6_jesters_taunt_counterexample :
    c6Jester ∈ c6State.units ∧ isAlive c6Jester = true ∧
    isEngaged c6State c6Jester = false ∧
    getJestersTauntTargets c6State c6Jester ≠ [] ∧
    getUnitsNeedingAbilityTargets c6State = [] ∧
    endPhaseFaction2Transition c6State = GamePhase.RESOLUTION_COMBAT := by decide

/-- C6 (amended): the end-of-Faction2Move scan collects exactly the living
unengaged units with a non-empty target set for Spears Pierce, Archers
Volley, or Cannon Mortar (the cannon additionally must not have moved) —
Jesters Taunt is not part of the scan — and the phase becomes
`AbilityTargeting` exactly when the scan is non-empty, else
`ResolutionCombat`. -/
theorem C6_ability_targeting_scan (s : GameState) (u : GameUnit) :
    (u ∈ getUnitsNeedingAbilityTargets s ↔
      u ∈ s.units ∧ u.damage < u.maxHp ∧ isEngaged s u = false ∧
        ((u.type.name = "Spears" ∧ getSpearsPierceTargets s u ≠ []) ∨
         (u.type.name = "Archers" ∧ getArchersVolleyTargets s u ≠ []) ∨
         (u.type.name = "Cannon" ∧ u.movedThisTurn = false ∧
           getCannonMortarTargets s u ≠ []))) ∧
    (endPhaseFaction2Transition s = GamePhase.ABILITY_TARGETING ↔
      getUnitsNeedingAbilityTargets s ≠ []) := by
  constructor
  · rw [getUnitsNeedingAbilityTargets, List.mem_filter]
    unfold unitNeedsAbilityTargets
    by_cases hdead : u.maxHp ≤ u.damage
    · simp [hdead, Nat.not_lt.mpr hdead]
    · have hlt := Nat.not_le.mp hdead
      simp only [if_neg hdead, Bool.or_eq_true, Bool.and_eq_true, beq_iff_eq,
        Bool.not_eq_true', decide_eq_true_eq, ← List.length_pos]
      tauto
  · unfold endPhaseFaction2Transition
    by_cases h : 0 < (getUnitsNeedingAbilityTargets s).length
    · simp [h, List.length_pos.mp h]
    · have hz : getUnitsNeedingAbilityTargets s = [] := by
        rcases Nat.eq_zero_of_not_pos h with hz
        exact List.length_eq_zero.mp hz
      simp [h, hz]

/-- C7 counterexample: with a destroyed-but-not-yet-removed Archer still in
the unit list, the lone living Archer of that (faction, type) is displayed
WITH its sequence number although only one living unit exists. -/
theorem C7_display_name_counterexample :
    (c7State.units.filter (fun x =>
      decide (x.faction = c7LiveArcher.faction) &&
        decide (x.type.id = c7LiveArcher.type.id) && isAlive x)).length = 1 ∧
    getUnitDisplayName c7State c7LiveArcher ≠
      c7LiveArcher.type.symbol ++ " " ++ c7LiveArcher.type.name ∧
    getUnitDisplayName c7State c7LiveArcher = "🏹 Archers #2" := by decide

/-- C7 (amended): the display name carries the `#number` suffix exactly when
more than one unit of that (faction, type) is present in the current unit
list — counted with no liveness filter, so destroyed units not yet removed
also count — recomputed from the state at call time. -/
theorem C7_display_name (s : GameState) (u : GameUnit) :
    (1 < (s.units.filter (fun x =>
        decide (x.faction = u.faction) && decide (x.type.id = u.type.id))).length →
      getUnitDisplayName s u =
        u.type.symbol ++ " " ++ u.type.name ++ " #" ++ toString u.number) ∧
    ((s.units.filter (fun x =>
        decide (x.faction = u.faction) && decide (x.type.id = u.type.id))).length ≤ 1 →
      getUnitDisplayName s u = u.type.symbol ++ " " ++ u.type.name) := by
  unfold getUnitDisplayName
  constructor
  · intro h
    simp [h]
  · intro h
    simp [Nat.not_lt.mpr h]

/-- C7 witness: the amended theorem at the dead-Archer board. -/
theorem C7_display_name_witness :
    getUnitDisplayName c7State c7LiveArcher = "🏹 Archers #2" :=
  ((C7_display_name c7State c7LiveArcher).1 (by decide)).trans (by decide)

/-- C3 counterexample: the Mounted unit's first move may be the always-legal
stay-in-place no-op (0 hex-steps); the second move of 1 hex onto the enemy
hex then still applies the +2 charge bonus although the two moves cover only
1 total hex-step — `moveUnit` passes the literal 2 as the distance. -/
theorem C3_charge_distance_counterexample :
    (Hex.mk 2 2 ∈ getValidMoves c3State c3Mounted) ∧
    hexDistance 2 2 2 2 = 0 ∧
    c3State1.pendingSecondMove = some 1 ∧
    c3State1.activatedUnits = [] ∧
    c3State1.units.find? (fun x => x.id == 1) = some c3MountedMoved ∧
    (Hex.mk 2 3 ∈ getValidMoves c3State1 c3MountedMoved) ∧
    hexDistance 2 2 2 3 = 1 ∧
    findDamage (moveUnit c3State1 1 2 3 (fun _ => none)) 2 = some 2 := by decide

/-- C3 (amended): a Mounted unit's first move of the turn marks it pending a
second move without activating it or dealing damage; on its second move the
+2 charge bonus is applied to an enemy at the destination whenever no
counter-charging Spears is adjacent — for ANY destination, regardless of the
total hex-steps the two moves covered (the engine hard-codes the distance
check's argument to 2) — and a counter-charge fires instead of the bonus
when such a Spears exists. -/
theorem C3_mounted_charge_on_second_move (s : GameState) (uid : Nat)
    (newRow newCol : Int) (picker : List GameUnit → Option GameUnit)
    (u : GameUnit)
    (hfind : s.units.find? (fun x => x.id == uid) = some u)
    (hmounted : u.type.id = UnitTypes.MOUNTED.id) :
    (u.movedThisTurn = false →
      (moveUnit s uid newRow newCol picker).pendingSecondMove = some uid ∧
      (moveUnit s uid newRow newCol picker).activatedUnits = s.activatedUnits ∧
      (moveUnit s uid newRow newCol picker).units =
        (moveUnitApply s uid newRow newCol).units) ∧
    (∀ e : GameUnit, u.movedThisTurn = true →
      getFactionUnitsAt (moveUnitFlags (moveUnitApply s uid newRow newCol) uid true true)
          newRow newCol (if u.faction = 1 then 2 else 1) = [e] →
      findCounterChargingSpears (moveUnitFlags (moveUnitApply s uid newRow newCol) uid true true)
          newRow newCol (if u.faction = 1 then 2 else 1) = [] →
      moveUnit s uid newRow newCol picker =
        applyDamage (moveUnitFlags (moveUnitApply s uid newRow newCol) uid true true)
          e.id 2) ∧
    (∀ (spear : GameUnit) (rest : List GameUnit), u.movedThisTurn = true →
      findCounterChargingSpears (moveUnitFlags (moveUnitApply s uid newRow newCol) uid true true)
          newRow newCol (if u.faction = 1 then 2 else 1) = spear :: rest →
      0 < (getFactionUnitsAt (moveUnitFlags (moveUnitApply s uid newRow newCol) uid true true)
          newRow newCol (if u.faction = 1 then 2 else 1)).length →
      moveUnit s uid newRow newCol picker =
        applySpearCounterCharge
          (moveUnitFlags (moveUnitApply s uid newRow newCol) uid true true)
          spear.id uid) := by
  have hdec : decide (u.type.id = UnitTypes.MOUNTED.id) = true := decide_eq_true hmounted
  have hu : u.id = uid := by simpa using List.find?_some hfind
  refine ⟨?_, ?_, ?_⟩
  · intro hm
    unfold moveUnit
    rw [hfind]
    dsimp only
    rw [hdec, hm]
    simp only [Bool.and_false, Bool.not_false, Bool.and_true, Bool.false_eq_true,
      if_false]
    refine ⟨?_, ?_, ?_⟩ <;> · split <;> simp [moveUnitFlags, moveUnitApply]
  · intro e hm henemies hcs
    unfold moveUnit
    rw [hfind]
    dsimp only
    rw [hdec, hm]
    simp only [Bool.and_true]
    rw [henemies, hcs]
    simp only [List.length_cons, List.length_nil, Nat.zero_add, Nat.lt_irrefl,
      if_false, Nat.zero_lt_one, if_true]
    have hfind' : (moveUnitFlags (moveUnitApply s uid newRow newCol) uid true
        true).units.find? (fun x => x.id == uid) =
        some { u with row := newRow, col := newCol, movedThisTurn := true } := by
      show (moveUnitApply s uid newRow newCol).units.find? _ = _
      rw [find?_moveUnitApply, hfind]
      simp [hu]
    unfold applyMountedChargeBonus
    rw [hfind']
    simp [hmounted]
  · intro spear rest hm hcs henlen
    unfold moveUnit
    rw [hfind]
    dsimp only
    rw [hdec, hm]
    simp only [Bool.and_true]
    rw [hcs, if_pos henlen]
    simp

/-- C3 witness: the amended theorem's second-move part at the concrete board
where the first move was a 0-step no-op. -/
theorem C3_mounted_charge_on_second_move_witness :
    moveUnit c3State1 1 2 3 (fun _ => none) =
      applyDamage (moveUnitFlags (moveUnitApply c3State1 1 2 3) 1 true true)
        c3Enemy.id 2 :=
  (C3_mounted_charge_on_second_move c3State1 1 2 3 (fun _ => none) c3MountedMoved
    (by decide) rfl).2.1 c3Enemy rfl (by decide) (by decide)

end Smalltx
